import Mathlib

/-!
Shallow embedding of the ScreenSync coordination/dispatch core:
`screensync/screen_sync/coordinator.py` (class `Coordinator`) and
`screensync/screen_sync/bulb_control/kasa_bulb.py` (class `KasaBulbControl`).

Python machine-level conventions used throughout:
* A `Color` is the Python tuple `(r, g, b)` of ints, embedded as `Nat × Nat × Nat`.
* Python attributes that hold `None`-or-object handles (`self.device`,
  `self.light_module`) are embedded as `Bool` flags recording whether the
  handle is set (truthiness is all the source ever tests).
* Python exceptions are embedded with `Except PyErr`; a `try/except` block
  becomes a `match` on the outcome of the fallible sub-action.
* The outcome of a network send (`asyncio.run(...)`) is an oracle parameter
  of type `SendOutcome`: the transport either completes or raises.
* Side effects on the device/network are recorded as an event list.
* Python float arithmetic in `apply_brightness` (`brightness / 100.0`,
  `int(r * multiplier)`) is embedded exactly, as IEEE-754 binary64
  round-to-nearest-even arithmetic over `Nat` (see `fpDiv100`, `fpMulTrunc`).
-/

/-- Python exceptions that the embedded fragment can raise. -/
inductive PyErr where
  | attributeError (attr : String)
  | transportError (msg : String)
  deriving DecidableEq, Repr

/-- An RGB triple `(r, g, b)` as produced by the color processor and consumed
by `set_color`. -/
abbrev Color := Nat × Nat × Nat

/-- Outcome of one `asyncio.run(...)` transport call: it returns normally or
raises an exception carrying a message. -/
inductive SendOutcome where
  | ok
  | err (msg : String)
  deriving DecidableEq, Repr

/-- Modelled from the spec: the `RateLimiter` class is not under `src/`
(only its callers in `kasa_bulb.py` are).  Per the spec, `is_allowed()` is a
side-effecting gate that records the time of the most recent allowed call and
returns true iff at least the configured minimum interval has elapsed since
that call; a denied call leaves the state unchanged. -/
structure RateLimiter where
  min_interval : Nat
  last_allowed : Option Nat
  deriving DecidableEq, Repr

/-- Modelled from the spec: `is_allowed()` at time `now`.  Returns the
decision together with the (possibly updated) limiter state. -/
def RateLimiter.is_allowed (rl : RateLimiter) (now : Nat) : Bool × RateLimiter :=
  match rl.last_allowed with
  | none => (true, { rl with last_allowed := some now })
  | some t =>
      if t + rl.min_interval ≤ now then
        (true, { rl with last_allowed := some now })
      else
        (false, rl)

/-- Device/network side effects of the bulb-control operations. -/
inductive BulbEffect where
  | cmdSetHsv (h s v : Int)
  | cmdSetBrightness (level : Nat)
  | cmdTurnOn
  | cmdTurnOff
  | cmdUpdate
  | logError (msg : String)
  deriving DecidableEq, Repr

/-- State of one `KasaBulbControl` instance (`kasa_bulb.py`, `__init__`).
`device`/`light_module` record whether the corresponding handle is set
(`self.device = None` initially; set only by a successful `connect()`). -/
structure KasaBulbControl where
  device_alias : String
  device : Bool
  light_module : Bool
  rate_limiter : RateLimiter
  last_color : Option Color
  placement : String
  deriving DecidableEq, Repr

/-- `KasaBulbControl.__init__(device_alias, rate_limiter, placement)`. -/
def mkKasaBulbControl (device_alias : String) (rate_limiter : RateLimiter)
    (placement : String) : KasaBulbControl :=
  { device_alias := device_alias
    device := false
    light_module := false
    rate_limiter := rate_limiter
    last_color := none
    placement := placement }

/-- Net state effect of `connect()`: the discovery loop either finds the
aliased device (with or without a Light module) and sets the handles, or all
attempts fail and both handles stay as they were.  `discovered = none` embeds
the run in which every discovery attempt failed. -/
def KasaBulbControl.connect (b : KasaBulbControl) (discovered : Option Bool) :
    KasaBulbControl :=
  match discovered with
  | none => b
  | some hasLight => { b with device := true, light_module := hasLight }

/-- Exact-rational embedding of `colorsys.rgb_to_hsv(r/255, g/255, b/255)`
followed by the scaling `int(h*360), int(s*100), int(v*100)` in `set_color`.
(The Python source computes with binary64 floats; the claims under proof never
inspect these three numbers, so the idealized exact-rational value stands in
for the float value here.) -/
def rgbToHsvScaled (r g b : Nat) : Int × Int × Int :=
  let rq : ℚ := (r : ℚ) / 255
  let gq : ℚ := (g : ℚ) / 255
  let bq : ℚ := (b : ℚ) / 255
  let maxc := max rq (max gq bq)
  let minc := min rq (min gq bq)
  let v := maxc
  if minc = maxc then (0, 0, ⌊v * 100⌋)
  else
    let s := (maxc - minc) / maxc
    let rc := (maxc - rq) / (maxc - minc)
    let gc := (maxc - gq) / (maxc - minc)
    let bc := (maxc - bq) / (maxc - minc)
    let h0 : ℚ :=
      if rq = maxc then bc - gc
      else if gq = maxc then 2 + rc - bc
      else 4 + gc - rc
    let h := h0 / 6 - ⌊h0 / 6⌋
    (⌊h * 360⌋, ⌊s * 100⌋, ⌊v * 100⌋)

/-- `KasaBulbControl.set_color(r, g, b)` (`kasa_bulb.py`).  `now` is the time
at which the owned rate limiter is consulted; `outcome` is the oracle for the
`asyncio.run(self.light_module.set_hsv(...))` transport call.  The result is
`Except` so that a raised-and-not-caught exception would be visible; the
source catches every transport error, logging it. -/
def KasaBulbControl.set_color (bulb : KasaBulbControl) (now : Nat)
    (outcome : SendOutcome) (r g b : Nat) :
    Except PyErr (KasaBulbControl × List BulbEffect) :=
  let new_color : Color := (r, g, b)
  if some new_color = bulb.last_color then
    .ok (bulb, [])
  else if !(bulb.device && bulb.light_module) then
    .ok (bulb, [])
  else
    let (allowed, rl) := bulb.rate_limiter.is_allowed now
    let bulb := { bulb with rate_limiter := rl }
    if allowed then
      let (h, s, v) := rgbToHsvScaled r g b
      match outcome with
      | .ok =>
          .ok ({ bulb with last_color := some new_color }, [.cmdSetHsv h s v])
      | .err m =>
          .ok (bulb, [.cmdSetHsv h s v, .logError m])
    else
      .ok (bulb, [])

/-- `KasaBulbControl.turn_off()`: guarded by `if self.device:`, transport
errors caught and logged. -/
def KasaBulbControl.turn_off (bulb : KasaBulbControl) (outcome : SendOutcome) :
    Except PyErr (KasaBulbControl × List BulbEffect) :=
  if bulb.device then
    match outcome with
    | .ok => .ok (bulb, [.cmdTurnOff])
    | .err m => .ok (bulb, [.cmdTurnOff, .logError m])
  else
    .ok (bulb, [])

/-- `KasaBulbControl.turn_on()`: guarded by `if self.device:`, transport
errors caught and logged. -/
def KasaBulbControl.turn_on (bulb : KasaBulbControl) (outcome : SendOutcome) :
    Except PyErr (KasaBulbControl × List BulbEffect) :=
  if bulb.device then
    match outcome with
    | .ok => .ok (bulb, [.cmdTurnOn])
    | .err m => .ok (bulb, [.cmdTurnOn, .logError m])
  else
    .ok (bulb, [])

/-- `KasaBulbControl.set_brightness(brightness)`: guarded by
`if self.device and self.light_module:`; the transport call is attempted with
no rate-limiter consultation; errors caught and logged. -/
def KasaBulbControl.set_brightness (bulb : KasaBulbControl)
    (outcome : SendOutcome) (brightness : Nat) :
    Except PyErr (KasaBulbControl × List BulbEffect) :=
  if bulb.device && bulb.light_module then
    match outcome with
    | .ok => .ok (bulb, [.cmdSetBrightness brightness])
    | .err m => .ok (bulb, [.cmdSetBrightness brightness, .logError m])
  else
    .ok (bulb, [])

/-- Round the rational `n / d` (with `d > 0`) to the nearest integer,
ties to even — the IEEE-754 default rounding used by CPython floats. -/
def rndNE (n d : Nat) : Nat :=
  let q := n / d
  let r := n % d
  if 2 * r < d then q
  else if d < 2 * r then q + 1
  else if q % 2 = 0 then q else q + 1

/-- Smallest `t` with `100 ≤ p * 2^t`; for `p ∈ [1,100]` this is the
normalization shift of `p/100` into `[1, 2)` (so `p/100` has binary exponent
`-t`).  `p ≥ 1` finds `t ≤ 7` since `2^7 = 128 ≥ 100`. -/
def normShift (p : Nat) : Nat :=
  ((List.range 8).find? fun t => 100 ≤ p <<< t).getD 0

/-- The binary64 value of the Python expression `p / 100.0` for `p ∈ [1,100]`,
returned as `(m, t)` meaning the dyadic rational `m / 2^(52+t)` with
`2^52 ≤ m ≤ 2^53`: the 53-bit round-to-nearest-even mantissa of `p/100`. -/
def fpDiv100 (p : Nat) : Nat × Nat :=
  let t := normShift p
  let m := rndNE (p <<< (52 + t)) 100
  if m = 2 ^ 53 then (2 ^ 52, t - 1) else (m, t)

/-- Number of binary digits of `n`, by structural recursion on a fuel bound
(`bitlen fuel n` is exact whenever `n < 2 ^ fuel`). -/
def bitlen (fuel n : Nat) : Nat :=
  match fuel with
  | 0 => 0
  | fuel + 1 => if n = 0 then 0 else bitlen fuel (n / 2) + 1

/-- The Python expression `int(r * multiplier)` where `multiplier` is the
binary64 value `m / 2^(52+t)`: the product `r * multiplier` is rounded to
nearest-even at 53 significant bits (binary64 multiplication; `r ≤ 255` is
exactly representable) and then truncated toward zero by `int(...)`.
`s` is the number of excess bits beyond 53 in the product
(`bitlen (P >>> 53)` equals `bitlen P - 53` when that is nonnegative, else 0;
the products at hand are below `2^61`, so fuel `8` makes it exact). -/
def fpMulTrunc (r m t : Nat) : Nat :=
  if r = 0 then 0
  else
    let P := r * m
    let s := bitlen 8 (P >>> 53)
    let m2 := rndNE P (2 ^ s)
    (m2 <<< s) >>> (52 + t)

/-- One channel of `Coordinator.apply_brightness`: the Python value
`int(r * (p / 100.0))` under exact binary64 semantics. -/
def applyChannel (p r : Nat) : Nat :=
  fpMulTrunc r (fpDiv100 p).1 (fpDiv100 p).2

/-- The idealized per-channel brightness formula the spec states:
`floor(r * p / 100)`. -/
def floorChannel (p r : Nat) : Nat :=
  r * p / 100

/-- `KasaBulbControl.status()`: on a set device handle runs
`asyncio.run(self.device.update())` and returns `self.device.sys_info`
(embedded as an opaque string tagged by the alias); on a transport error
returns `None`; with no device handle falls through, returning `None`. -/
def KasaBulbControl.status (bulb : KasaBulbControl) (outcome : SendOutcome) :
    Except PyErr (Option String × List BulbEffect) :=
  if bulb.device then
    match outcome with
    | .ok => .ok (some bulb.device_alias, [.cmdUpdate])
    | .err m => .ok (none, [.cmdUpdate, .logError m])
  else
    .ok (none, [])

/-- State of one `Coordinator` instance (`coordinator.py`, `__init__`).
The `color_processing` module reference and the `threading.Lock` are external
handles with no embedded state (the sampler is passed to the loop functions
directly).  `color_cache_default` is the default value of the
`defaultdict` created in `__init__`; the dict itself is never read or written
anywhere in the source, so only its default is represented.
`has_loop_attrs` records whether the attributes `self.threads` and
`self.update_thread` exist (both are created together inside `start()`, never
in `__init__`).  `spawned_loops` counts the update-loop threads spawned so
far, for stating the single-update-loop invariant. -/
structure Coordinator where
  bulbs : List KasaBulbControl
  mode : String
  running : Bool
  color_cache_default : Color
  brightness : Nat
  has_loop_attrs : Bool
  spawned_loops : Nat
  deriving DecidableEq, Repr

/-- `Coordinator.__init__(bulbs, color_processing_module)`. -/
def mkCoordinator (bulbs : List KasaBulbControl) : Coordinator :=
  { bulbs := bulbs
    mode := "normal"
    running := false
    color_cache_default := (0, 0, 0)
    brightness := 100
    has_loop_attrs := false
    spawned_loops := 0 }

/-- `Coordinator.set_mode(mode)`. -/
def Coordinator.set_mode (c : Coordinator) (mode : String) : Coordinator :=
  { c with mode := mode }

/-- `Coordinator.set_brightness(brightness)`: clamps via
`max(1, min(100, brightness))`. -/
def Coordinator.set_brightness (c : Coordinator) (brightness : Int) :
    Coordinator :=
  { c with brightness := (max 1 (min 100 brightness)).toNat }

/-- `Coordinator.apply_brightness(color)`: computes
`multiplier = self.brightness / 100.0` and returns
`(int(r*multiplier), int(g*multiplier), int(b*multiplier))`, embedded with
exact binary64 semantics via `applyChannel`. -/
def Coordinator.apply_brightness (c : Coordinator) (color : Color) : Color :=
  let (r, g, b) := color
  (applyChannel c.brightness r, applyChannel c.brightness g,
    applyChannel c.brightness b)

/-- Observable events of one iteration of `run_update_loop`.  A `dispatch`
event is tagged with the bulb it targets (the source iterates
`for bulb in self.bulbs` with no index). -/
inductive TickEvent where
  | recordUpdate
  | sampleZone (zone : String) (mode : Option String) (result : Color)
  | dispatch (bulb : KasaBulbControl) (color : Color)
  deriving DecidableEq, Repr

/-- One iteration of `Coordinator.run_update_loop` (the body of the
`while self.running:` loop, minus the sleep).  `sample zone mode` is the
external `self.color_processing.process_screen_zone(zone, mode=...)` call
(`none` = the call with no explicit mode argument).  Each
`self.update_bulb_color(bulb, color)` spawns a thread running
`bulb.set_color(*color)`; the event `dispatch bulb color` records that
fan-out. -/
def Coordinator.run_tick (c : Coordinator)
    (sample : String → Option String → Color) : List TickEvent :=
  TickEvent.recordUpdate ::
    (if c.mode = "shooter" then
      let center_color := sample "center" (some "Shooter")
      let dimmed := c.apply_brightness center_color
      TickEvent.sampleZone "center" (some "Shooter") center_color ::
        c.bulbs.map fun bulb => TickEvent.dispatch bulb dimmed
    else
      c.bulbs.flatMap fun bulb =>
        let zone_color := sample bulb.placement none
        [TickEvent.sampleZone bulb.placement none zone_color,
          TickEvent.dispatch bulb (c.apply_brightness zone_color)])

/-- The sampling calls recorded in a tick's event list. -/
def tickSamples (evs : List TickEvent) : List (String × Option String) :=
  evs.filterMap fun e =>
    match e with
    | .sampleZone zone mode _ => some (zone, mode)
    | _ => none

/-- The per-bulb color dispatches recorded in a tick's event list. -/
def tickDispatches (evs : List TickEvent) : List (KasaBulbControl × Color) :=
  evs.filterMap fun e =>
    match e with
    | .dispatch bulb color => some (bulb, color)
    | _ => none

/-- Observable events of `Coordinator.stop` / `Coordinator.update_bulbs`. -/
inductive CoordEffect where
  | joinUpdateThread
  | joinBulbThreads
  | finalColor (bulb : KasaBulbControl) (color : Color)
  deriving DecidableEq, Repr

/-- `Coordinator.start()`: prints diagnostics, sets `self.running = True`,
creates `self.threads = []` and spawns a fresh update-loop thread stored in
`self.update_thread` (these two attributes exist from here on:
`has_loop_attrs`).  Unconditional: the source never checks `self.running`
first.  The surrounding `try/except` fires only if thread creation itself
raises, which the embedding takes as always succeeding. -/
def Coordinator.start (c : Coordinator) : Coordinator :=
  { c with running := true, has_loop_attrs := true,
           spawned_loops := c.spawned_loops + 1 }

/-- The fixed shutdown color of `Coordinator.stop`:
`(int(255 * 0.5), int(220 * 0.5), int(150 * 0.5))`.  Each product with the
binary64 value `0.5` is exact, so `int` truncation is division by two. -/
def warm_yellow_dimmed : Color := (255 / 2, 220 / 2, 150 / 2)

/-- `Coordinator.stop()`: clears `self.running`, then evaluates
`if self.update_thread:` — an `AttributeError` escapes here when `start()`
has never run, since the attribute access itself is outside every `try`.
Otherwise joins the update thread (bounded timeout), joins the bulb threads
(bounded timeouts), and finally spawns a background daemon thread running
`set_final_colors`, which calls `bulb.set_color(*warm_yellow_dimmed)` for
every bulb in `self.bulbs`; the event list records those dispatches after the
joins. -/
def Coordinator.stop (c : Coordinator) :
    Except PyErr (Coordinator × List CoordEffect) :=
  let c := { c with running := false }
  if !c.has_loop_attrs then
    .error (.attributeError "update_thread")
  else
    .ok (c, CoordEffect.joinUpdateThread :: CoordEffect.joinBulbThreads ::
      c.bulbs.map fun bulb => CoordEffect.finalColor bulb warm_yellow_dimmed)

/-- `Coordinator.update_bulbs(new_bulbs)`: stops if running, swaps the bulb
list, calls `self.start()`, and then — since `start()` has just set
`self.running = True` — evaluates `if self.running: self.start()` again. -/
def Coordinator.update_bulbs (c : Coordinator)
    (new_bulbs : List KasaBulbControl) :
    Except PyErr (Coordinator × List CoordEffect) := do
  let (c, effs) ← if c.running then c.stop else pure (c, [])
  let c := { c with bulbs := new_bulbs }
  let c := c.start
  if c.running then
    pure (c.start, effs)
  else
    pure (c, effs)

/-! ## Concrete fixtures used by witnesses and counterexamples -/

/-- A fresh rate limiter that allows its first call. -/
def demoLimiter : RateLimiter := { min_interval := 0, last_allowed := none }

/-- A rate limiter in a denying state: the last allowed call was at time 5
and the minimum interval is 1000, so calls at times 5..1004 are denied. -/
def deniedLimiter : RateLimiter := { min_interval := 1000, last_allowed := some 5 }

/-- A just-constructed bulb (no connect yet). -/
def demoBulb : KasaBulbControl := mkKasaBulbControl "desk" demoLimiter "center-left"

/-- A second just-constructed bulb. -/
def demoBulb2 : KasaBulbControl := mkKasaBulbControl "shelf" demoLimiter "center-right"

/-- `demoBulb` after a successful `connect()` that found a Light module. -/
def demoConnectedBulb : KasaBulbControl := demoBulb.connect (some true)

/-- A connected bulb whose rate limiter is in a denying state. -/
def demoDeniedBulb : KasaBulbControl :=
  { demoConnectedBulb with rate_limiter := deniedLimiter }

/-! ## Claim theorems -/

/-- `stop()` on `c` succeeds and, after the two join phases, dispatches
`set_color(*warm_yellow_dimmed)` to exactly the bulbs of `c.bulbs` — to every
one of them, with the fixed color `(127, 110, 75)`, and identically under
every mode. -/
def stopDispatchesShutdown (c : Coordinator) : Prop :=
  ∃ finals,
    c.stop = .ok ({ c with running := false },
      CoordEffect.joinUpdateThread :: CoordEffect.joinBulbThreads :: finals) ∧
    (∀ b ∈ c.bulbs, CoordEffect.finalColor b warm_yellow_dimmed ∈ finals) ∧
    (∀ f ∈ finals, ∃ b ∈ c.bulbs, f = CoordEffect.finalColor b warm_yellow_dimmed) ∧
    warm_yellow_dimmed = (127, 110, 75) ∧
    (∀ m : String, (c.set_mode m).stop =
      .ok ({ c.set_mode m with running := false },
        CoordEffect.joinUpdateThread :: CoordEffect.joinBulbThreads :: finals))

/-- C1: after `stop()` on a started coordinator, the shutdown dispatch
targets every bulb in the bulb set with the fixed dimmed warm-yellow color
`(int(255*0.5), int(220*0.5), int(150*0.5)) = (127, 110, 75)`, via
`set_color`, regardless of the active mode, as a background action issued
after the update-loop and bulb-thread joins. -/
theorem C1_stop_dispatches_shutdown_color (c : Coordinator)
    (h : c.has_loop_attrs = true) : stopDispatchesShutdown c := by
  refine ⟨c.bulbs.map fun b => CoordEffect.finalColor b warm_yellow_dimmed,
    ?_, ?_, ?_, rfl, ?_⟩
  · simp [Coordinator.stop, h]
  · intro b hb
    exact List.mem_map_of_mem _ hb
  · intro f hf
    rcases List.mem_map.1 hf with ⟨b, hb, rfl⟩
    exact ⟨b, hb, rfl⟩
  · intro m
    simp [Coordinator.stop, Coordinator.set_mode, h]

/-- C1 witness: the hypothesis and conclusion at a concrete started
coordinator. -/
theorem C1_stop_dispatches_shutdown_color_witness :
    (mkCoordinator [demoBulb]).start.has_loop_attrs = true ∧
      stopDispatchesShutdown (mkCoordinator [demoBulb]).start :=
  ⟨rfl, C1_stop_dispatches_shutdown_color _ rfl⟩

/-- `stop()` on `c` returns normally. -/
def stopReturnsOk (c : Coordinator) : Prop :=
  ∃ res, c.stop = .ok res

/-- C10: `stop()` on a freshly constructed coordinator raises
`AttributeError` (the `self.update_thread` access in `stop` is outside every
`try`, and the attribute is created only inside `start()`); once any
`start()` has run, the attributes exist and `stop()` returns normally. -/
theorem C10_stop_unsafe_before_start :
    (∀ bulbs, (mkCoordinator bulbs).stop = .error (.attributeError "update_thread")) ∧
    (∀ c : Coordinator, c.has_loop_attrs = true → stopReturnsOk c) ∧
    (∀ c : Coordinator, c.start.has_loop_attrs = true) := by
  refine ⟨fun bulbs => rfl, fun c h => ?_, fun c => rfl⟩
  exact ⟨({ c with running := false },
      CoordEffect.joinUpdateThread :: CoordEffect.joinBulbThreads ::
        c.bulbs.map fun b => CoordEffect.finalColor b warm_yellow_dimmed),
    by simp [Coordinator.stop, h]⟩

/-- C10 witness: the hypothesis of the second conjunct discharged at a
concrete started coordinator. -/
theorem C10_stop_unsafe_before_start_witness :
    stopReturnsOk (mkCoordinator [demoBulb]).start :=
  C10_stop_unsafe_before_start.2.1 _ rfl

/-- A connected bulb whose dedup cache already holds `(1, 2, 3)`. -/
def demoCachedBulb : KasaBulbControl :=
  { demoConnectedBulb with last_color := some (1, 2, 3) }

/-- Does an effect list contain a `set_hsv` device command? -/
def hasHsvCmd (effs : List BulbEffect) : Bool :=
  effs.any fun e =>
    match e with
    | .cmdSetHsv _ _ _ => true
    | _ => false

/-- Every branch of `set_color` returns normally. -/
lemma set_color_isOk (b : KasaBulbControl) (now : Nat) (outcome : SendOutcome)
    (r g bb : Nat) : ∃ res, b.set_color now outcome r g bb = .ok res := by
  cases hres : b.set_color now outcome r g bb with
  | ok res => exact ⟨res, rfl⟩
  | error e =>
      exfalso
      simp only [KasaBulbControl.set_color] at hres
      repeat' split at hres
      all_goals simp at hres

/-- C2 counterexample: a connected bulb with an empty dedup cache and an
allowing limiter, whose transport call raises: the command is attempted
(a `set_hsv` command is issued) yet the cached last color stays `none`,
not the requested `(10, 20, 30)`. -/
theorem C2_counterexample :
    Except.map (fun res => (res.1.last_color, hasHsvCmd res.2))
        (demoConnectedBulb.set_color 0 (.err "pipe") 10 20 30) =
      .ok (none, true) ∧
    (none : Option Color) ≠ some (10, 20, 30) := by
  exact ⟨rfl, by decide⟩

/-- C2 (amended): when a dispatch is attempted (dedup miss, connected,
limiter allows), the cached last color becomes the requested color if the
transport call returns normally, and is left unchanged if it raises; in
both cases the limiter records the call and the `set_hsv` command is
issued. -/
theorem C2_cache_updated_only_on_success (b : KasaBulbControl)
    (now r g bb : Nat) (msg : String)
    (hdedup : some ((r, g, bb) : Color) ≠ b.last_color)
    (hdev : b.device = true) (hlm : b.light_module = true)
    (hallow : (b.rate_limiter.is_allowed now).1 = true) :
    b.set_color now .ok r g bb =
      .ok ({ b with rate_limiter := (b.rate_limiter.is_allowed now).2,
                    last_color := some (r, g, bb) },
        [.cmdSetHsv (rgbToHsvScaled r g bb).1 (rgbToHsvScaled r g bb).2.1
          (rgbToHsvScaled r g bb).2.2]) ∧
    b.set_color now (.err msg) r g bb =
      .ok ({ b with rate_limiter := (b.rate_limiter.is_allowed now).2 },
        [.cmdSetHsv (rgbToHsvScaled r g bb).1 (rgbToHsvScaled r g bb).2.1
          (rgbToHsvScaled r g bb).2.2, .logError msg]) := by
  rcases hrl : b.rate_limiter.is_allowed now with ⟨allowed, rl⟩
  rw [hrl] at hallow
  simp only at hallow
  subst hallow
  rcases hq : rgbToHsvScaled r g bb with ⟨q1, q2, q3⟩
  constructor <;>
    simp [KasaBulbControl.set_color, hdedup, hdev, hlm, hrl, hq]

/-- C2 witness: hypotheses discharged at `demoConnectedBulb`. -/
theorem C2_cache_updated_only_on_success_witness :
    some ((10, 20, 30) : Color) ≠ demoConnectedBulb.last_color ∧
      demoConnectedBulb.device = true ∧
      demoConnectedBulb.light_module = true ∧
      (demoConnectedBulb.rate_limiter.is_allowed 0).1 = true ∧
      (demoConnectedBulb.set_color 0 .ok 10 20 30 =
        .ok ({ demoConnectedBulb with
                rate_limiter := (demoConnectedBulb.rate_limiter.is_allowed 0).2,
                last_color := some (10, 20, 30) },
          [.cmdSetHsv (rgbToHsvScaled 10 20 30).1 (rgbToHsvScaled 10 20 30).2.1
            (rgbToHsvScaled 10 20 30).2.2]) ∧
      demoConnectedBulb.set_color 0 (.err "pipe") 10 20 30 =
        .ok ({ demoConnectedBulb with
                rate_limiter := (demoConnectedBulb.rate_limiter.is_allowed 0).2 },
          [.cmdSetHsv (rgbToHsvScaled 10 20 30).1 (rgbToHsvScaled 10 20 30).2.1
            (rgbToHsvScaled 10 20 30).2.2, .logError "pipe"])) :=
  ⟨by decide, rfl, rfl, rfl,
    C2_cache_updated_only_on_success demoConnectedBulb 0 10 20 30 "pipe"
      (by decide) rfl rfl rfl⟩

/-- Shared helper: on the deduplicated and the unconnected paths,
`set_color` returns the bulb unchanged with no effect. -/
lemma set_color_noop_of_dedup_or_unconnected (b : KasaBulbControl)
    (now : Nat) (outcome : SendOutcome) (r g bb : Nat)
    (h : some ((r, g, bb) : Color) = b.last_color ∨
      b.device = false ∨ b.light_module = false) :
    b.set_color now outcome r g bb = .ok (b, []) := by
  by_cases hd : some ((r, g, bb) : Color) = b.last_color
  · simp [KasaBulbControl.set_color, hd]
  · rcases h with h | h | h
    · exact absurd h hd
    · simp [KasaBulbControl.set_color, hd, h]
    · simp [KasaBulbControl.set_color, hd, h]

/-- C9: on the deduplicated path (requested color equals the cached color)
and on the unconnected path (`device` or `light_module` handle unset),
`set_color` returns with the bulb — its rate limiter included — unchanged
and no effect issued: the limiter is never consulted and never records the
call. -/
theorem C9_noop_paths_leave_limiter_untouched (b : KasaBulbControl)
    (now : Nat) (outcome : SendOutcome) (r g bb : Nat)
    (h : some ((r, g, bb) : Color) = b.last_color ∨
      b.device = false ∨ b.light_module = false) :
    b.set_color now outcome r g bb = .ok (b, []) :=
  set_color_noop_of_dedup_or_unconnected b now outcome r g bb h

/-- C9 witness: the deduplicated path at a concrete cached bulb. -/
theorem C9_noop_paths_leave_limiter_untouched_witness :
    demoCachedBulb.set_color 7 .ok 1 2 3 = .ok (demoCachedBulb, []) :=
  C9_noop_paths_leave_limiter_untouched demoCachedBulb 7 .ok 1 2 3
    (Or.inl rfl)

/-- C8: `set_color`, `turn_on`, `turn_off` and `status` never propagate an
exception; construction leaves the device handle unset, a fully failed
`connect()` leaves the bulb unchanged, and on a bulb with no device handle
each operation is a no-op, `status` returning `None`. -/
theorem C8_bulb_ops_fail_soft (b : KasaBulbControl) (now : Nat)
    (outcome : SendOutcome) (r g bb : Nat) (dalias pl : String)
    (rl : RateLimiter) :
    (∀ e, b.set_color now outcome r g bb ≠ .error e) ∧
    (∀ e, b.turn_on outcome ≠ .error e) ∧
    (∀ e, b.turn_off outcome ≠ .error e) ∧
    (∀ e, b.status outcome ≠ .error e) ∧
    (mkKasaBulbControl dalias rl pl).device = false ∧
    b.connect none = b ∧
    (b.device = false →
      b.set_color now outcome r g bb = .ok (b, []) ∧
      b.turn_on outcome = .ok (b, []) ∧
      b.turn_off outcome = .ok (b, []) ∧
      b.status outcome = .ok (none, [])) := by
  refine ⟨?_, ?_, ?_, ?_, rfl, rfl, fun hdev => ⟨?_, ?_, ?_, ?_⟩⟩
  · intro e
    obtain ⟨res, hres⟩ := set_color_isOk b now outcome r g bb
    simp [hres]
  · intro e
    cases hb : b.device <;> cases outcome <;>
      simp [KasaBulbControl.turn_on, hb]
  · intro e
    cases hb : b.device <;> cases outcome <;>
      simp [KasaBulbControl.turn_off, hb]
  · intro e
    cases hb : b.device <;> cases outcome <;>
      simp [KasaBulbControl.status, hb]
  · exact set_color_noop_of_dedup_or_unconnected b now outcome r g bb
      (Or.inr (Or.inl hdev))
  · simp [KasaBulbControl.turn_on, hdev]
  · simp [KasaBulbControl.turn_off, hdev]
  · simp [KasaBulbControl.status, hdev]

/-- C8 witness: hypotheses discharged at the just-constructed `demoBulb`. -/
theorem C8_bulb_ops_fail_soft_witness :
    demoBulb.device = false ∧
      (demoBulb.set_color 0 .ok 1 2 3 = .ok (demoBulb, []) ∧
        demoBulb.turn_on .ok = .ok (demoBulb, []) ∧
        demoBulb.turn_off .ok = .ok (demoBulb, []) ∧
        demoBulb.status .ok = .ok (none, [])) :=
  ⟨rfl, (C8_bulb_ops_fail_soft demoBulb 0 .ok 1 2 3 "a" "p"
    demoLimiter).2.2.2.2.2.2 rfl⟩

/-- C7 counterexample: a connected bulb whose rate limiter is denying at the
current time still has the brightness command dispatched — `set_brightness`
never consults the limiter (the returned bulb, limiter included, is
unchanged). -/
theorem C7_counterexample :
    (demoDeniedBulb.rate_limiter.is_allowed 6).1 = false ∧
    demoDeniedBulb.set_brightness .ok 80 =
      .ok (demoDeniedBulb, [.cmdSetBrightness 80]) := by
  exact ⟨rfl, rfl⟩

/-- C7 (amended): `set_brightness(level)` is a no-op when the device or
light-module handle is unset, swallows transport errors, and — unlike
`set_color` — consults no rate limiter: when connected the command is
always attempted, and the bulb state (limiter included) is never changed. -/
theorem C7_set_brightness_contract (b : KasaBulbControl)
    (outcome : SendOutcome) (level : Nat) (m : String) :
    (∀ e, b.set_brightness outcome level ≠ .error e) ∧
    (b.device = false ∨ b.light_module = false →
      b.set_brightness outcome level = .ok (b, [])) ∧
    (b.device = true → b.light_module = true →
      b.set_brightness .ok level = .ok (b, [.cmdSetBrightness level]) ∧
      b.set_brightness (.err m) level =
        .ok (b, [.cmdSetBrightness level, .logError m])) := by
  refine ⟨?_, ?_, fun h1 h2 => ?_⟩
  · intro e
    by_cases hc : (b.device && b.light_module) = true <;> cases outcome <;>
      simp [KasaBulbControl.set_brightness, hc]
  · intro h
    have hc : (b.device && b.light_module) = false := by
      rcases h with h | h <;> simp [h]
    simp [KasaBulbControl.set_brightness, hc]
  · constructor <;> simp [KasaBulbControl.set_brightness, h1, h2]

/-- C7 witness: the unconnected no-op and the connected dispatch at concrete
bulbs. -/
theorem C7_set_brightness_contract_witness :
    demoBulb.set_brightness .ok 80 = .ok (demoBulb, []) ∧
      demoDeniedBulb.set_brightness .ok 80 =
        .ok (demoDeniedBulb, [.cmdSetBrightness 80]) :=
  ⟨(C7_set_brightness_contract demoBulb .ok 80 "x").2.1 (Or.inl rfl),
    ((C7_set_brightness_contract demoDeniedBulb .ok 80 "x").2.2 rfl rfl).1⟩

/-- C3: evaluation of `update_bulbs` at its failing inputs.  From a Stopped
coordinator it does not merely replace the bulb set: it calls `start()` and
then, `self.running` now being true, `start()` again — two update loops.
From a Running coordinator it stops (shutdown dispatch included), swaps, and
likewise starts twice, ending with three loops spawned in total. -/
theorem C3_update_bulbs_double_start_evaluation :
    (∃ c', (mkCoordinator [demoBulb]).update_bulbs [demoBulb2] = .ok (c', []) ∧
      c'.running = true ∧ c'.spawned_loops = 2 ∧ c'.bulbs = [demoBulb2]) ∧
    (∃ c' effs,
      (mkCoordinator [demoBulb]).start.update_bulbs [demoBulb2] =
        .ok (c', effs) ∧
      c'.running = true ∧ c'.spawned_loops = 3 ∧ c'.bulbs = [demoBulb2] ∧
      CoordEffect.finalColor demoBulb warm_yellow_dimmed ∈ effs) := by
  constructor
  · exact ⟨_, rfl, rfl, rfl, rfl⟩
  · refine ⟨_, _, rfl, rfl, rfl, rfl, ?_⟩
    decide

/-- C4: evaluation of `start()` at its failing input.  On an already-Running
coordinator, `start()` is not a no-op and not an error: it spawns a second
update loop (and resets the `threads` list and `update_thread` attribute),
changing the coordinator's state. -/
theorem C4_start_while_running_spawns_second_loop :
    (mkCoordinator [demoBulb]).start.running = true ∧
    (mkCoordinator [demoBulb]).start.start.spawned_loops = 2 ∧
    (mkCoordinator [demoBulb]).start.start ≠ (mkCoordinator [demoBulb]).start := by
  refine ⟨rfl, rfl, by decide⟩

/-- C5 counterexample: at brightness 29 the channel value 100 is mapped to
`int(100 * 0.29) = 28` (the binary64 value of `0.29` is slightly below
29/100, and `100 * 0.29` rounds to `28.999999999999996`), not the
`floor(100*29/100) = 29` the claim states. -/
theorem C5_counterexample :
    ((mkCoordinator []).set_brightness 29).apply_brightness (100, 100, 100) =
      (28, 28, 28) ∧
    (floorChannel 29 100, floorChannel 29 100, floorChannel 29 100) =
      (29, 29, 29) := by
  exact ⟨by decide, by decide⟩

set_option maxRecDepth 40000 in
/-- C5 (amended): `apply_brightness` maps each channel through
`int(r * (p / 100.0))` in binary64 arithmetic (`applyChannel`); at brightness
50 — whose multiplier 0.5 and products are exactly representable — this
coincides with `floor(r*p/100)` for every channel value, and in particular
brightness 50 on `(255, 220, 150)` gives `(127, 110, 75)`; but double
rounding can land one below the exact floor, as at brightness 29 on
channel 100. -/
theorem C5_apply_brightness_binary64 :
    (∀ (c : Coordinator) (r g b : Nat),
      c.apply_brightness (r, g, b) =
        (applyChannel c.brightness r, applyChannel c.brightness g,
          applyChannel c.brightness b)) ∧
    (∀ r : Fin 256, applyChannel 50 r.val = floorChannel 50 r.val) ∧
    ((mkCoordinator []).set_brightness 50).apply_brightness (255, 220, 150) =
      (127, 110, 75) ∧
    applyChannel 29 100 + 1 = floorChannel 29 100 := by
  refine ⟨fun c r g b => rfl, by decide, by decide, by decide⟩

/-- A bulb placed on the "left" zone. -/
def demoLeftBulb : KasaBulbControl := mkKasaBulbControl "lamp-l" demoLimiter "left"

/-- A bulb placed on the "right" zone. -/
def demoRightBulb : KasaBulbControl := mkKasaBulbControl "lamp-r" demoLimiter "right"

/-- A sampler that returns red for the "left" zone and black elsewhere. -/
def demoSampler : String → Option String → Color :=
  fun zone _ => if zone = "left" then (200, 0, 0) else (0, 0, 0)

/-- `recordUpdate` contributes no sampling event. -/
lemma tickSamples_cons_record (evs : List TickEvent) :
    tickSamples (TickEvent.recordUpdate :: evs) = tickSamples evs := rfl

/-- A `sampleZone` event contributes its zone/mode pair. -/
lemma tickSamples_cons_sample (z : String) (m : Option String) (res : Color)
    (evs : List TickEvent) :
    tickSamples (TickEvent.sampleZone z m res :: evs) =
      (z, m) :: tickSamples evs := rfl

/-- A `dispatch` event contributes no sampling event. -/
lemma tickSamples_cons_dispatch (b : KasaBulbControl) (col : Color)
    (evs : List TickEvent) :
    tickSamples (TickEvent.dispatch b col :: evs) = tickSamples evs := rfl

/-- `recordUpdate` contributes no dispatch. -/
lemma tickDispatches_cons_record (evs : List TickEvent) :
    tickDispatches (TickEvent.recordUpdate :: evs) = tickDispatches evs := rfl

/-- A `sampleZone` event contributes no dispatch. -/
lemma tickDispatches_cons_sample (z : String) (m : Option String) (res : Color)
    (evs : List TickEvent) :
    tickDispatches (TickEvent.sampleZone z m res :: evs) =
      tickDispatches evs := rfl

/-- A `dispatch` event contributes its bulb/color pair. -/
lemma tickDispatches_cons_dispatch (b : KasaBulbControl) (col : Color)
    (evs : List TickEvent) :
    tickDispatches (TickEvent.dispatch b col :: evs) =
      (b, col) :: tickDispatches evs := rfl

/-- No sampling events come from a list of dispatch events. -/
lemma tickSamples_dispatchMap (l : List KasaBulbControl) (col : Color) :
    tickSamples (l.map fun b => TickEvent.dispatch b col) = [] := by
  induction l with
  | nil => rfl
  | cons b l ih => rw [List.map_cons, tickSamples_cons_dispatch, ih]

/-- The dispatch events of a uniform dispatch list, one per bulb. -/
lemma tickDispatches_dispatchMap (l : List KasaBulbControl) (col : Color) :
    tickDispatches (l.map fun b => TickEvent.dispatch b col) =
      l.map fun b => (b, col) := by
  induction l with
  | nil => rfl
  | cons b l ih =>
      rw [List.map_cons, tickDispatches_cons_dispatch, ih, List.map_cons]

/-- The sampling events of the normal-mode per-bulb event list: one sample
per bulb, from that bulb's own placement, with no mode argument. -/
lemma tickSamples_normalFlat (l : List KasaBulbControl) (app : Color → Color)
    (sample : String → Option String → Color) :
    tickSamples (l.flatMap fun b =>
        [TickEvent.sampleZone b.placement none (sample b.placement none),
          TickEvent.dispatch b (app (sample b.placement none))]) =
      l.map fun b => (b.placement, (none : Option String)) := by
  induction l with
  | nil => rfl
  | cons b l ih =>
      rw [List.flatMap_cons, List.cons_append, List.cons_append,
        List.nil_append, tickSamples_cons_sample, tickSamples_cons_dispatch,
        ih, List.map_cons]

/-- The dispatch events of the normal-mode per-bulb event list: each bulb is
dispatched the processed color of its own placement zone. -/
lemma tickDispatches_normalFlat (l : List KasaBulbControl) (app : Color → Color)
    (sample : String → Option String → Color) :
    tickDispatches (l.flatMap fun b =>
        [TickEvent.sampleZone b.placement none (sample b.placement none),
          TickEvent.dispatch b (app (sample b.placement none))]) =
      l.map fun b => (b, app (sample b.placement none)) := by
  induction l with
  | nil => rfl
  | cons b l ih =>
      rw [List.flatMap_cons, List.cons_append, List.cons_append,
        List.nil_append, tickDispatches_cons_sample,
        tickDispatches_cons_dispatch, ih, List.map_cons]

/-- The event list of a Shooter-mode tick. -/
lemma run_tick_shooter (c : Coordinator)
    (sample : String → Option String → Color) (hmode : c.mode = "shooter") :
    c.run_tick sample =
      TickEvent.recordUpdate ::
        TickEvent.sampleZone "center" (some "Shooter")
          (sample "center" (some "Shooter")) ::
        (c.bulbs.map fun b =>
          TickEvent.dispatch b
            (c.apply_brightness (sample "center" (some "Shooter")))) := by
  simp [Coordinator.run_tick, hmode]

/-- The event list of a Normal-mode tick. -/
lemma run_tick_normal (c : Coordinator)
    (sample : String → Option String → Color) (hmode : c.mode ≠ "shooter") :
    c.run_tick sample =
      TickEvent.recordUpdate ::
        c.bulbs.flatMap fun b =>
          [TickEvent.sampleZone b.placement none (sample b.placement none),
            TickEvent.dispatch b
              (c.apply_brightness (sample b.placement none))] := by
  simp [Coordinator.run_tick, hmode]

/-- C6: in Shooter mode a tick samples exactly once (zone "center", Shooter
sampling), applies brightness once, and dispatches that same color value to
every bulb; in Normal mode each bulb is sampled and dispatched from its own
placement zone — so two bulbs with different placements can receive
different colors in the same tick (last conjunct: a concrete such tick). -/
theorem C6_tick_dispatch_semantics (c : Coordinator)
    (sample : String → Option String → Color) :
    (c.mode = "shooter" →
      tickSamples (c.run_tick sample) = [("center", some "Shooter")] ∧
      tickDispatches (c.run_tick sample) =
        c.bulbs.map fun b =>
          (b, c.apply_brightness (sample "center" (some "Shooter")))) ∧
    (c.mode ≠ "shooter" →
      tickSamples (c.run_tick sample) =
        c.bulbs.map (fun b => (b.placement, (none : Option String))) ∧
      tickDispatches (c.run_tick sample) =
        c.bulbs.map fun b =>
          (b, c.apply_brightness (sample b.placement none))) ∧
    (∃ (c' : Coordinator) (sample' : String → Option String → Color)
        (b1 b2 : KasaBulbControl) (col1 col2 : Color),
      c'.mode = "normal" ∧ b1.placement ≠ b2.placement ∧
      (b1, col1) ∈ tickDispatches (c'.run_tick sample') ∧
      (b2, col2) ∈ tickDispatches (c'.run_tick sample') ∧ col1 ≠ col2) := by
  refine ⟨fun hmode => ?_, fun hmode => ?_, ?_⟩
  · rw [run_tick_shooter c sample hmode, tickSamples_cons_record,
      tickSamples_cons_sample, tickSamples_dispatchMap,
      tickDispatches_cons_record, tickDispatches_cons_sample,
      tickDispatches_dispatchMap]
    exact ⟨rfl, rfl⟩
  · rw [run_tick_normal c sample hmode, tickSamples_cons_record,
      tickSamples_normalFlat c.bulbs c.apply_brightness sample,
      tickDispatches_cons_record,
      tickDispatches_normalFlat c.bulbs c.apply_brightness sample]
    exact ⟨rfl, rfl⟩
  · refine ⟨mkCoordinator [demoLeftBulb, demoRightBulb], demoSampler,
      demoLeftBulb, demoRightBulb, (200, 0, 0), (0, 0, 0),
      rfl, by decide, by decide, by decide, by decide⟩

/-- C6 witness: both mode hypotheses discharged at concrete coordinators. -/
theorem C6_tick_dispatch_semantics_witness :
    (tickSamples (((mkCoordinator [demoLeftBulb]).set_mode "shooter").run_tick
        demoSampler) = [("center", some "Shooter")] ∧
      tickDispatches (((mkCoordinator [demoLeftBulb]).set_mode "shooter").run_tick
        demoSampler) =
        [demoLeftBulb].map fun b =>
          (b, ((mkCoordinator [demoLeftBulb]).set_mode "shooter").apply_brightness
            (demoSampler "center" (some "Shooter")))) ∧
    (tickSamples ((mkCoordinator [demoLeftBulb]).run_tick demoSampler) =
        [("left", none)] ∧
      tickDispatches ((mkCoordinator [demoLeftBulb]).run_tick demoSampler) =
        [demoLeftBulb].map fun b =>
          (b, (mkCoordinator [demoLeftBulb]).apply_brightness
            (demoSampler b.placement none))) :=
  ⟨(C6_tick_dispatch_semantics _ demoSampler).1 rfl,
    (C6_tick_dispatch_semantics (mkCoordinator [demoLeftBulb])
      demoSampler).2.1 (by decide)⟩
